import Mathlib

namespace Morvo

/-!
Verification development for the Morvo marketing-consultation backend.

The definitions below are shallow embeddings of the Python source of the
repository (file and line references appear on each definition):

* `app/services/ai/seranking_processor_agent.py` — the regional relevance
  score over a backlink summary, and the full Saudi-market context analysis
  over arbitrary JSON-shaped payloads.
* `app/services/ai/master_agent.py` — intent classification
  (`_determine_required_agents`), the coordination pass
  (`coordinate_marketing_analysis`), the coordinated-analysis folding and
  the response-summary / error-response text generation.
* `app/services/seranking_service.py` — the backlink adapter that maps
  HTTP-level outcomes to result dictionaries or re-raised errors.
* `app/services/chat_service.py` — message processing, the conversation
  get-or-create logic and turn persistence.
* `app/models/conversation.py` — the parts of the schema the invariants
  range over (active flag, turn counters).

Python `float` arithmetic is modelled as exact rational arithmetic, and
Python `round` (banker's rounding, round-half-to-even) is modelled by
`pyRound` below.  Python exceptions are modelled as explicit `Except` /
`EStateM` error values.
-/

/-! ### Python rounding, modelled over the rationals -/

/-- Model of Python `round(x)`: round half to even (banker's rounding).
On a tie (fractional part exactly one half) the even neighbour is chosen;
otherwise it agrees with rounding to the nearest integer. -/
def pyRound (q : ℚ) : ℤ :=
  if Int.fract q = 1 / 2 then (if Even ⌊q⌋ then ⌊q⌋ else ⌊q⌋ + 1) else round q

/-- Model of Python `round(x, 1)`: round to one decimal place. -/
def pyRound1 (q : ℚ) : ℚ :=
  (pyRound (q * 10) : ℚ) / 10

/-! ### Regional relevance score
(`seranking_processor_agent.py`, `_analyze_saudi_market_context`, lines 115-135)

Inputs are the counts the surrounding code extracts from the backlink
summary: `saudiCount` = `saudi_domains_count`, `gccCount` =
`gcc_domains_count`, `arabicCount` = `len(arabic_anchor_texts)`,
`anchorsTotal` = `len(summary.get("top_anchors_by_backlinks", []))`,
`refdomains` = `summary.get("refdomains", 1)`, and the two backlink
counters.  The claim C2 restricts attention to non-negative counts, which
the `ℕ` argument types capture. -/

/-- The un-clamped, un-rounded relevance sum of lines 119-130:
`saudi_ratio*4.0 + gcc_ratio*2.0 + arabic_ratio*2.0 + gov bonus + edu bonus`,
with the total-referring-domains denominator replaced by 1 when it is 0
(lines 116-117) and the anchors denominator `max(len(...), 1)` (line 122). -/
def relevanceRaw (saudiCount gccCount arabicCount anchorsTotal refdomains govCount eduCount : ℕ) : ℚ :=
  let total : ℚ := if refdomains = 0 then 1 else (refdomains : ℚ)
  (saudiCount : ℚ) / total * 4 + (gccCount : ℚ) / total * 2
    + (arabicCount : ℚ) / ((max anchorsTotal 1 : ℕ) : ℚ) * 2
    + (if 0 < govCount then 1 else 0) + (if 0 < eduCount then 1 / 2 else 0)

/-- The `local_relevance_score` as computed by the source, lines 125-135:
round the raw sum to one decimal place, then clamp the result at 10.0. -/
def localRelevanceScore (saudiCount gccCount arabicCount anchorsTotal refdomains govCount eduCount : ℕ) : ℚ :=
  let s := pyRound1 (relevanceRaw saudiCount gccCount arabicCount anchorsTotal refdomains govCount eduCount)
  if 10 < s then 10 else s

/-- Relevance score written from the spec's words (section 4.2 of the spec):
the same weighted sum with every denominator floored at 1, "clamped to a
maximum of 10.0 and rounded to one decimal place" (clamp stated first). -/
def specRelevanceScore (saudiCount gccCount arabicCount anchorsTotal refdomains govCount eduCount : ℕ) : ℚ :=
  let total : ℚ := ((max refdomains 1 : ℕ) : ℚ)
  let raw : ℚ := (saudiCount : ℚ) / total * 4 + (gccCount : ℚ) / total * 2
    + (arabicCount : ℚ) / ((max anchorsTotal 1 : ℕ) : ℚ) * 2
    + (if 0 < govCount then 1 else 0) + (if 0 < eduCount then 1 / 2 else 0)
  pyRound1 (min raw 10)

/-! ### Intent classification
(`master_agent.py`, `_determine_required_agents`, lines 138-179; the copy in
`enhanced_master_agent.py` lines 135-176 is textually identical.)

Python's `keyword in message_lower` substring test is modelled by
`occursIn` over character lists; `message.lower()` is modelled by mapping
`Char.toLower` (the keyword groups are ASCII-lowercase or Arabic, which has
no case, so ASCII lowercasing is an exact model on every character that can
influence a match). -/

/-- The four specialist names used by the coordinator. -/
inductive Agent where
  | culturalContext
  | perplexity
  | seranking
  | dataSynthesis
deriving DecidableEq, Repr

/-- Test whether `needle` occurs at the head of `hay`. -/
def beginsWith : List Char → List Char → Bool
  | [], _ => true
  | _ :: _, [] => false
  | a :: as, b :: bs => a = b && beginsWith as bs

/-- Python's substring containment `needle in hay`. -/
def occursIn (needle : List Char) : List Char → Bool
  | [] => needle.isEmpty
  | c :: rest => beginsWith needle (c :: rest) || occursIn needle rest

/-- The SEO keyword group of lines 152-154. -/
def seoKeywords : List String :=
  ["seo", "search", "ranking", "google", "keywords", "بحث", "محرك البحث"]

/-- The competitor keyword group of lines 158-160. -/
def competitorKeywords : List String :=
  ["competitor", "competition", "analysis", "منافس", "تحليل"]

/-- The website keyword group of lines 164-166. -/
def websiteKeywords : List String :=
  ["website", "site", "url", "domain", "موقع"]

/-- The marketing keyword group of lines 170-172. -/
def marketingKeywords : List String :=
  ["marketing", "strategy", "campaign", "تسويق", "استراتيجية"]

/-- Python's `any(keyword in message_lower for keyword in group)`. -/
def classifierHit (kws : List String) (m : List Char) : Bool :=
  kws.any fun k => occursIn k.toList m

/-- The `elif` chain of lines 152-173: `required_agents` starts as
`["cultural_context"]` and the first matching keyword group appends its
specialists. -/
def primaryAgents (m : List Char) : List Agent :=
  if classifierHit seoKeywords m then
    [Agent.culturalContext, Agent.seranking, Agent.perplexity]
  else if classifierHit competitorKeywords m then
    [Agent.culturalContext, Agent.seranking, Agent.perplexity]
  else if classifierHit websiteKeywords m then
    [Agent.culturalContext, Agent.perplexity]
  else if classifierHit marketingKeywords m then
    [Agent.culturalContext, Agent.perplexity]
  else
    [Agent.culturalContext]

/-- Full `_determine_required_agents`: lowercase the message, run the
keyword chain, append `data_synthesis` when more than one agent was
collected (lines 176-177), and deduplicate (line 179, `list(set(...))`;
Python's set iteration order is unspecified, so only membership in the
returned list is meaningful). -/
def determineRequiredAgents (msg : String) : List Agent :=
  let m := msg.toList.map Char.toLower
  let pri := primaryAgents m
  (if 1 < pri.length then pri ++ [Agent.dataSynthesis] else pri).dedup

/-- The specialists selected beyond cultural adaptation (the ones whose
outputs data synthesis would reconcile): everything in the required set
other than `cultural_context` and `data_synthesis` itself. -/
def selectedBeyondCultural (msg : String) : List Agent :=
  (determineRequiredAgents msg).filter fun a =>
    !(a == Agent.culturalContext) && !(a == Agent.dataSynthesis)

/-! ### The coordination pass
(`master_agent.py`, `coordinate_marketing_analysis` lines 47-136,
`_execute_*` wrappers lines 181-312, `_create_coordinated_analysis`
lines 314-351, `_generate_response_summary` lines 353-388,
`_create_error_response` lines 410-436.)

Each underlying specialist call either produces a payload or raises; the
`_execute_*` wrapper catches every exception (`except Exception`) and
returns a `{"status": "error"}` dictionary, so the outcome of one adapter
is modelled by `AdapterOutcome` and the wrapped call by `execAdapter`. -/

/-- Outcome of one underlying specialist call: a payload (whose insight,
recommendation and cultural-adaptation lists are the parts the
coordinated-analysis fold reads) or a raised exception. -/
inductive AdapterOutcome where
  | ok (insights recommendations adaptations : List String)
  | failed (err : String)

/-- The dictionary an `_execute_*` wrapper returns: `status` of `success`
or `error`, the payload lists read by `_create_coordinated_analysis`, and
the error message in the failure case. -/
structure AgentResult where
  statusSuccess : Bool
  insights : List String
  recommendations : List String
  culturalAdaptations : List String
  errorMsg : Option String
deriving DecidableEq, Repr

/-- An `_execute_*` wrapper (lines 181-312): success packages the payload,
any exception is caught and becomes `{"status": "error", "error": str(e)}`. -/
def execAdapter : AdapterOutcome → AgentResult
  | AdapterOutcome.ok ins recs ads =>
      { statusSuccess := true, insights := ins, recommendations := recs,
        culturalAdaptations := ads, errorMsg := none }
  | AdapterOutcome.failed e =>
      { statusSuccess := false, insights := [], recommendations := [],
        culturalAdaptations := [], errorMsg := some e }

/-- The `agent_results` mapping built by the four sequential `if` blocks of
lines 89-113, in their program order: cultural context, then perplexity,
then seranking, then data synthesis. -/
def agentResultsOf (req : List Agent) (outs : Agent → AdapterOutcome) :
    List (Agent × AgentResult) :=
  (if Agent.culturalContext ∈ req then
    [(Agent.culturalContext, execAdapter (outs Agent.culturalContext))] else [])
  ++ (if Agent.perplexity ∈ req then
    [(Agent.perplexity, execAdapter (outs Agent.perplexity))] else [])
  ++ (if Agent.seranking ∈ req then
    [(Agent.seranking, execAdapter (outs Agent.seranking))] else [])
  ++ (if Agent.dataSynthesis ∈ req then
    [(Agent.dataSynthesis, execAdapter (outs Agent.dataSynthesis))] else [])

/-- Suspension events of one coordination pass: an adapter coroutine is
started, or its completion is awaited. -/
inductive AdapterEvent where
  | start (a : Agent)
  | awaited (a : Agent)
deriving DecidableEq, Repr

/-- The event trace of lines 89-113: each `await self._execute_X(...)`
starts the call and immediately awaits it before the next block runs. -/
def coordinateTrace (req : List Agent) : List AdapterEvent :=
  (if Agent.culturalContext ∈ req then
    [AdapterEvent.start Agent.culturalContext, AdapterEvent.awaited Agent.culturalContext] else [])
  ++ (if Agent.perplexity ∈ req then
    [AdapterEvent.start Agent.perplexity, AdapterEvent.awaited Agent.perplexity] else [])
  ++ (if Agent.seranking ∈ req then
    [AdapterEvent.start Agent.seranking, AdapterEvent.awaited Agent.seranking] else [])
  ++ (if Agent.dataSynthesis ∈ req then
    [AdapterEvent.start Agent.dataSynthesis, AdapterEvent.awaited Agent.dataSynthesis] else [])

def isStart : AdapterEvent → Bool
  | AdapterEvent.start _ => true
  | AdapterEvent.awaited _ => false

/-- Concurrent fan-out in the spec's sense: every start event precedes
every awaited event, i.e. the trace is a run of starts followed only by
awaits. -/
def allStartsBeforeAwaits (t : List AdapterEvent) : Bool :=
  (t.dropWhile isStart).all fun e => !(isStart e)

/-- Strictly sequential invocation: the trace is a sequence of adjacent
start/await pairs, one adapter fully awaited before the next is started. -/
def sequentialPairs : List AdapterEvent → Bool
  | [] => true
  | AdapterEvent.start a :: AdapterEvent.awaited b :: rest =>
      a == b && sequentialPairs rest
  | _ => false

/-- The fold of `_create_coordinated_analysis` lines 322-334 over
`agent_results`, collecting `analysis["insights"]` from the successful
entries in iteration order. -/
def collectInsights (rs : List (Agent × AgentResult)) : List String :=
  rs.foldl (fun acc p => if p.2.statusSuccess then acc ++ p.2.insights else acc) []

/-- Companion fold collecting `analysis["recommendations"]`. -/
def collectRecommendations (rs : List (Agent × AgentResult)) : List String :=
  rs.foldl (fun acc p => if p.2.statusSuccess then acc ++ p.2.recommendations else acc) []

/-- Companion fold collecting the top-level `cultural_adaptations`. -/
def collectAdaptations (rs : List (Agent × AgentResult)) : List String :=
  rs.foldl (fun acc p => if p.2.statusSuccess then acc ++ p.2.culturalAdaptations else acc) []

/-- Numbered list rendering of `_generate_response_summary`:
`for i, x in enumerate(xs[:3], 1): response += f"{i}. {x}\n"`. -/
def numberedLines (xs : List String) : String :=
  String.join ((xs.take 3).enum.map fun p => toString (p.1 + 1) ++ (". ") ++ p.2 ++ ("\n"))

def summaryHeaderPre : String :=
  "🇸🇦 **Saudi Market Intelligence Analysis**\n\nBased on your question about \""

def summaryHeaderPost : String :=
  "...\", I\x27ve coordinated multiple AI agents to provide comprehensive insights:\n\n**🎯 Key Insights:**\n"

def summaryActionsHeader : String :=
  "\n**📋 Recommended Actions:**\n"

def summaryFooter : String :=
  "\n**🕌 Cultural Intelligence Applied:**\n• Islamic values compliance ensured\n• Vision 2030 alignment integrated\n• Saudi market preferences considered\n• Arabic localization recommendations included\n\n**Next Steps:** I can dive deeper into any specific area or analyze your website/competitors for detailed insights."

/-- The template of `_generate_response_summary` (lines 353-388): fixed
header with the first 50 characters of the user message, up to three
numbered insights, up to three numbered recommendations, fixed footer. -/
def generateResponseSummary (userMessage : String) (insights recommendations : List String) :
    String :=
  summaryHeaderPre ++ userMessage.take 50 ++ summaryHeaderPost
    ++ numberedLines insights ++ summaryActionsHeader
    ++ numberedLines recommendations ++ summaryFooter

/-- The `coordinated_analysis` dictionary of lines 336-349. -/
structure CoordinatedAnalysis where
  summary : String
  keyInsights : List String
  recommendedActions : List String
  culturalAdaptations : List String
  confidenceScore : ℚ
deriving DecidableEq, Repr

/-- The fold and packaging of `_create_coordinated_analysis` lines 314-351. -/
def createCoordinatedAnalysis (rs : List (Agent × AgentResult)) (userMessage : String) :
    CoordinatedAnalysis :=
  let ins := collectInsights rs
  let recs := collectRecommendations rs
  { summary := generateResponseSummary userMessage ins recs
    keyInsights := ins.take 5
    recommendedActions := recs.take 5
    culturalAdaptations := collectAdaptations rs
    confidenceScore := 85 / 100 }

/-- The top-level result of one coordination pass: the done path has no
`status` key (`statusError = false`); the exception-handler path
(`_create_error_response`) sets `"status": "error"`. -/
structure AnalysisResults where
  statusError : Bool
  errorMsg : Option String
  agentResults : List (Agent × AgentResult)
  coordinatedAnalysis : CoordinatedAnalysis
deriving DecidableEq, Repr

/-- The culturally adapted apology/redirect summary of
`_create_error_response` (lines 417-426). -/
def gracefulFallbackSummary : String :=
  "🤲 أعتذر، واجهت صعوبة في معالجة طلبك.\n\nI apologize for the technical difficulty. While I encountered an issue processing your request, I\x27m still here to help with:\n\n• Marketing strategy for Saudi Arabia\n• Cultural insights and recommendations\n• SEO and digital marketing guidance\n• Market research and competitor analysis\n\nPlease try rephrasing your question, and I\x27ll provide the best guidance possible."

/-- The error response of `_create_error_response` (lines 410-436),
produced only when an exception escapes the body of
`coordinate_marketing_analysis` into its `except` handler. -/
def createErrorResponse (err : String) : AnalysisResults :=
  { statusError := true
    errorMsg := some err
    agentResults := []
    coordinatedAnalysis :=
      { summary := gracefulFallbackSummary
        keyInsights := []
        recommendedActions :=
          ["Try rephrasing your question", "Ask about specific marketing topics",
           "Request Saudi market insights", "Inquire about cultural marketing best practices"]
        culturalAdaptations := ["Error response culturally adapted for Saudi market"]
        confidenceScore := 0 } }

/-- The body of `coordinate_marketing_analysis` (lines 64-132).  Every
adapter call inside the body is wrapped by an exception-catching
`_execute_*` helper, so adapter failures cannot reach the outer `except`
handler; the body itself only performs total dictionary and string
operations and therefore always returns the done-path result. -/
def coordinateMarketingAnalysis (msg : String) (outs : Agent → AdapterOutcome) :
    AnalysisResults :=
  let req := determineRequiredAgents msg
  let rs := agentResultsOf req outs
  { statusError := false
    errorMsg := none
    agentResults := rs
    coordinatedAnalysis := createCoordinatedAnalysis rs msg }

/-! ### JSON values and Python primitive semantics

`_analyze_saudi_market_context` (`seranking_processor_agent.py` lines
57-140) receives an arbitrary decoded-JSON dictionary.  `JVal` models the
decoded values, and the `py*` helpers model the Python primitives the
function applies to them, each returning `Except PyErr` where Python would
raise. -/

/-- A decoded JSON value. -/
inductive JVal where
  | null
  | bool (b : Bool)
  | num (q : ℚ)
  | str (s : String)
  | arr (xs : List JVal)
  | obj (kvs : List (String × JVal))

/-- The Python exceptions the embedded code can raise. -/
inductive PyErr where
  | typeError (msg : String)
  | attributeError (msg : String)
  | keyError (msg : String)
  | zeroDivisionError
  | serviceError (msg : String)
  | other (msg : String)
deriving DecidableEq, Repr

/-- Dictionary lookup (first binding wins, as in a Python dict where keys
are unique). -/
def jLookup (kvs : List (String × JVal)) (k : String) : Option JVal :=
  (kvs.find? fun p => p.1 == k).map Prod.snd

/-- Python `len(x)`: defined for strings, lists and dicts, `TypeError`
otherwise. -/
def pyLen : JVal → Except PyErr ℕ
  | JVal.str s => Except.ok s.length
  | JVal.arr xs => Except.ok xs.length
  | JVal.obj kvs => Except.ok kvs.length
  | _ => Except.error (PyErr.typeError ("object has no len"))

/-- Python `x.get(k, dflt)`: dictionary lookup with default;
`AttributeError` when `x` is not a dict. -/
def pyGet (x : JVal) (k : String) (dflt : JVal) : Except PyErr JVal :=
  match x with
  | JVal.obj kvs => Except.ok ((jLookup kvs k).getD dflt)
  | _ => Except.error (PyErr.attributeError ("object has no attribute get"))

/-- Python `k in x` for a string `k`: key membership for dicts, substring
test for strings, element equality for lists, `TypeError` otherwise. -/
def pyContainsKey (k : String) (x : JVal) : Except PyErr Bool :=
  match x with
  | JVal.obj kvs => Except.ok (kvs.any fun p => p.1 == k)
  | JVal.str s => Except.ok (occursIn k.toList s.toList)
  | JVal.arr xs => Except.ok (xs.any fun v =>
      match v with
      | JVal.str s => s == k
      | _ => false)
  | _ => Except.error (PyErr.typeError ("argument of type is not iterable"))

/-- Python `x[0]`: first element of a list, first character of a string;
`KeyError` on a dict (our keys are strings, never the integer 0),
`TypeError` otherwise. -/
def pyIndexZero : JVal → Except PyErr JVal
  | JVal.arr [] => Except.error (PyErr.other ("list index out of range"))
  | JVal.arr (x :: _) => Except.ok x
  | JVal.str s =>
      match s.toList with
      | [] => Except.error (PyErr.other ("string index out of range"))
      | c :: _ => Except.ok (JVal.str (String.mk [c]))
  | JVal.obj _ => Except.error (PyErr.keyError ("0"))
  | _ => Except.error (PyErr.typeError ("object is not subscriptable"))

/-- Python `x[k]` for a string key. -/
def pySubscript (x : JVal) (k : String) : Except PyErr JVal :=
  match x with
  | JVal.obj kvs =>
      match jLookup kvs k with
      | some v => Except.ok v
      | none => Except.error (PyErr.keyError k)
  | _ => Except.error (PyErr.typeError ("indices must be integers"))

/-- Python `for v in x`: list elements, string characters, or dict keys. -/
def pyIter : JVal → Except PyErr (List JVal)
  | JVal.arr xs => Except.ok xs
  | JVal.str s => Except.ok (s.toList.map fun c => JVal.str (String.mk [c]))
  | JVal.obj kvs => Except.ok (kvs.map fun p => JVal.str p.1)
  | _ => Except.error (PyErr.typeError ("object is not iterable"))

/-- Python `x.lower()`: `AttributeError` when `x` is not a string. -/
def pyStrLower (x : JVal) : Except PyErr String :=
  match x with
  | JVal.str s => Except.ok (String.mk (s.toList.map Char.toLower))
  | _ => Except.error (PyErr.attributeError ("object has no attribute lower"))

/-- Numeric value of a JSON value under Python arithmetic: numbers are
themselves, booleans coerce to 0/1, everything else is non-numeric. -/
def jNum : JVal → Option ℚ
  | JVal.num q => some q
  | JVal.bool b => some (if b then 1 else 0)
  | _ => none

/-- Python `acc + x` for numeric `acc` (the `+=` of the counter fields). -/
def pyAddNum (acc : ℚ) (x : JVal) : Except PyErr ℚ :=
  match jNum x with
  | some q => Except.ok (acc + q)
  | none => Except.error (PyErr.typeError ("unsupported operand type for +"))

/-- Python `a / b` over JSON values. -/
def pyDiv (a b : JVal) : Except PyErr ℚ :=
  match jNum a, jNum b with
  | some qa, some qb =>
      if qb = 0 then Except.error PyErr.zeroDivisionError else Except.ok (qa / qb)
  | _, _ => Except.error (PyErr.typeError ("unsupported operand type for div"))

/-- Python `q / b` for an already-numeric left operand. -/
def pyDivQ (q : ℚ) (b : JVal) : Except PyErr ℚ :=
  match jNum b with
  | some qb =>
      if qb = 0 then Except.error PyErr.zeroDivisionError else Except.ok (q / qb)
  | none => Except.error (PyErr.typeError ("unsupported operand type for div"))

/-- Python `x == 0` (never raises; booleans compare numerically). -/
def pyEqZero (x : JVal) : Bool :=
  match x with
  | JVal.num q => q == 0
  | JVal.bool b => b == false
  | _ => false

/-- Membership of a character in the Arabic Unicode blocks matched by the
regular expression of `_is_arabic_text` (lines 142-146). -/
def isArabicChar (c : Char) : Bool :=
  (0x600 ≤ c.toNat && c.toNat ≤ 0x6FF) || (0x750 ≤ c.toNat && c.toNat ≤ 0x77F)
    || (0x8A0 ≤ c.toNat && c.toNat ≤ 0x8FF) || (0xFB50 ≤ c.toNat && c.toNat ≤ 0xFDFF)
    || (0xFE70 ≤ c.toNat && c.toNat ≤ 0xFEFF)

/-- Python `self._is_arabic_text(x)`: `re.search` demands a string
(`TypeError` otherwise) and matches iff some character is Arabic. -/
def pyIsArabic (x : JVal) : Except PyErr Bool :=
  match x with
  | JVal.str s => Except.ok (s.toList.any isArabicChar)
  | _ => Except.error (PyErr.typeError ("expected string or bytes-like object"))

/-- Python `x.endswith(suff)`: `AttributeError` when `x` is not a string. -/
def pyEndsWith (x : JVal) (suff : String) : Except PyErr Bool :=
  match x with
  | JVal.str s => Except.ok (beginsWith suff.toList.reverse s.toList.reverse)
  | _ => Except.error (PyErr.attributeError ("object has no attribute endswith"))

/-- The string content of a value known to be a string. -/
def pyAsStr (x : JVal) : Except PyErr String :=
  match x with
  | JVal.str s => Except.ok s
  | _ => Except.error (PyErr.typeError ("expected string"))

/-! ### Saudi market context analysis
(`seranking_processor_agent.py`, `_analyze_saudi_market_context`,
lines 57-140) -/

/-- The `saudi_context` dictionary: all six keys are initialised up front
(lines 60-67).  `saudi_domains_count` is assigned raw JSON
(line 76), so it is a `JVal`; the `+=` counters stay numeric. -/
structure SaudiContext where
  saudiDomainsCount : JVal
  gccDomainsCount : ℚ
  arabicAnchorTexts : List (String × JVal)
  saudiGovernmentBacklinks : ℚ
  saudiEducationBacklinks : ℚ
  localRelevanceScore : ℚ

/-- The initial `saudi_context` of lines 60-67. -/
def defaultSaudiContext : SaudiContext :=
  { saudiDomainsCount := JVal.num 0
    gccDomainsCount := 0
    arabicAnchorTexts := []
    saudiGovernmentBacklinks := 0
    saudiEducationBacklinks := 0
    localRelevanceScore := 0 }

/-- Lift a fallible Python primitive into the stateful analysis
computation: a raised exception aborts the body, preserving the context
mutated so far. -/
def liftExc {α : Type} (e : Except PyErr α) : EStateM PyErr SaudiContext α :=
  match e with
  | Except.ok a => pure a
  | Except.error err => throw err

/-- The in-place mutating, exception-throwing analysis body (the `try`
block, lines 69-135), as a stateful computation over `saudi_context`. -/
def analyzeBody (apiData : List (String × JVal)) :
    EStateM PyErr SaudiContext Unit := do
  if apiData.any fun p => p.1 == ("summary") then
    let sv := (jLookup apiData ("summary")).getD (JVal.arr [])
    let n ← liftExc (pyLen sv)
    if 0 < n then
      let summary ← liftExc (pyIndexZero sv)
      let hasTC ← liftExc (pyContainsKey ("top_countries") summary)
      if hasTC then
        let tcv ← liftExc (pyGet summary ("top_countries") (JVal.arr []))
        let items ← liftExc (pyIter tcv)
        for country in items do
          let cval ← liftExc (pyGet country ("country") (JVal.str ("")))
          let cstr ← liftExc (pyStrLower cval)
          if [("sa"), ("saudi arabia")].contains cstr then
            let rd ← liftExc (pyGet country ("referring_domains") (JVal.num 0))
            modify fun s => { s with saudiDomainsCount := rd }
          else if [("ae"), ("kw"), ("qa"), ("bh"), ("om"), ("uae"), ("kuwait"),
              ("qatar"), ("bahrain"), ("oman")].contains cstr then
            let rd ← liftExc (pyGet country ("referring_domains") (JVal.num 0))
            let cur ← get
            let acc ← liftExc (pyAddNum cur.gccDomainsCount rd)
            modify fun s => { s with gccDomainsCount := acc }
      let hasAn ← liftExc (pyContainsKey ("top_anchors_by_backlinks") summary)
      if hasAn then
        let av ← liftExc (pySubscript summary ("top_anchors_by_backlinks"))
        let items ← liftExc (pyIter av)
        for anchor in items do
          let atext ← liftExc (pyGet anchor ("anchor") (JVal.str ("")))
          let isAr ← liftExc (pyIsArabic atext)
          if isAr then
            let ab ← liftExc (pyGet anchor ("backlinks") (JVal.num 0))
            let atextS ← liftExc (pyAsStr atext)
            modify fun s =>
              { s with arabicAnchorTexts := s.arabicAnchorTexts ++ [(atextS, ab)] }
      let hasRD ← liftExc (pyContainsKey ("top_referring_domains") summary)
      if hasRD then
        let rv ← liftExc (pyGet summary ("top_referring_domains") (JVal.arr []))
        let items ← liftExc (pyIter rv)
        for refDomain in items do
          let dn ← liftExc (pyGet refDomain ("domain") (JVal.str ("")))
          let isGov ← liftExc (pyEndsWith dn (".gov.sa"))
          if isGov then
            let b ← liftExc (pyGet refDomain ("backlinks") (JVal.num 0))
            let cur ← get
            let acc ← liftExc (pyAddNum cur.saudiGovernmentBacklinks b)
            modify fun s => { s with saudiGovernmentBacklinks := acc }
          else
            let isEdu ← liftExc (pyEndsWith dn (".edu.sa"))
            if isEdu then
              let b ← liftExc (pyGet refDomain ("backlinks") (JVal.num 0))
              let cur ← get
              let acc ← liftExc (pyAddNum cur.saudiEducationBacklinks b)
              modify fun s => { s with saudiEducationBacklinks := acc }
      let trdRaw ← liftExc (pyGet summary ("refdomains") (JVal.num 1))
      let trd := if pyEqZero trdRaw then JVal.num 1 else trdRaw
      let cur ← get
      let saudiFrac ← liftExc (pyDiv cur.saudiDomainsCount trd)
      let gccFrac ← liftExc (pyDivQ cur.gccDomainsCount trd)
      let anchorsV ← liftExc (pyGet summary ("top_anchors_by_backlinks") (JVal.arr []))
      let anchorsLen ← liftExc (pyLen anchorsV)
      let arabicFrac : ℚ :=
        (cur.arabicAnchorTexts.length : ℚ) / ((max anchorsLen 1 : ℕ) : ℚ)
      let raw : ℚ := saudiFrac * 4 + gccFrac * 2 + arabicFrac * 2
        + (if 0 < cur.saudiGovernmentBacklinks then (1 : ℚ) else 0)
        + (if 0 < cur.saudiEducationBacklinks then (1 : ℚ) / 2 else 0)
      modify fun s => { s with localRelevanceScore := pyRound1 raw }
      let cur2 ← get
      if 10 < cur2.localRelevanceScore then
        modify fun s => { s with localRelevanceScore := 10 }

/-- Full `_analyze_saudi_market_context`: run the `try` body from the
default context; on any exception the `except` handler (lines 137-138)
logs and falls through to return the context as mutated so far
(line 140). -/
def analyzeSaudiMarketContext (apiData : List (String × JVal)) : SaudiContext :=
  match (analyzeBody apiData).run defaultSaudiContext with
  | EStateM.Result.ok _ s => s
  | EStateM.Result.error _ s => s

/-- Decidable version of "the payload has a usable summary entry": a
`summary` key whose value has a positive Python length. -/
def hasUsableSummary (apiData : List (String × JVal)) : Bool :=
  match jLookup apiData ("summary") with
  | some v =>
      match pyLen v with
      | Except.ok n => 0 < n
      | Except.error _ => false
  | none => false

/-! ### Backlink adapters
(`seranking_service.py`, `analyze_backlinks` lines 48-80;
`seranking_processor_agent.py`, `analyze_backlinks` lines 26-55)

The HTTP layer (`await self.client.get(...)`, `raise_for_status()`,
`response.json()`) either yields a decoded JSON body or raises one of the
failure kinds below. -/

/-- Outcome of the HTTP call underlying a backlink request:
`httpx.HTTPStatusError` from `raise_for_status`, `httpx.RequestError` for
network-level failures, or any other exception (for example JSON
decoding). -/
inductive HttpFailure where
  | statusError (code : ℕ) (text : String)
  | requestError (msg : String)
  | otherError (msg : String)
deriving DecidableEq, Repr

/-- The result dictionary of `SERankingService.analyze_backlinks`. -/
structure BacklinkResult where
  success : Bool
  data : Option JVal
  error : Option String
  statusCode : Option ℕ

/-- The result dictionary of `SERankingProcessorAgent.analyze_backlinks`,
whose success payload carries the `saudi_market_analysis`. -/
structure ProcessorResult where
  success : Bool
  data : Option JVal
  saudiAnalysis : Option SaudiContext
  error : Option String

/-- Dictionary fields of a JSON body; a non-dictionary body behaves, for
`_analyze_saudi_market_context`, exactly like a dictionary without the
`summary` key (the `in` test is false or raises inside the `try`, and every
such path returns the defaults), so it is modelled as the empty field
list. -/
def jAsObjFields : JVal → List (String × JVal)
  | JVal.obj kvs => kvs
  | _ => []

/-- `SERankingService.analyze_backlinks` (lines 48-80): HTTP status errors
become `success: false` dictionaries, but network errors are re-raised as
`ServiceError` ("to be caught by a higher-level handler", line 79), and any
other exception propagates uncaught. -/
def serankingServiceAnalyzeBacklinks (resp : Except HttpFailure JVal) :
    Except PyErr BacklinkResult :=
  match resp with
  | Except.ok j =>
      Except.ok { success := true, data := some j, error := none, statusCode := none }
  | Except.error (HttpFailure.statusError code text) =>
      Except.ok
        { success := false, data := none,
          error := some (("API Error: ") ++ toString code ++ (" - ") ++ text),
          statusCode := some code }
  | Except.error (HttpFailure.requestError m) =>
      Except.error (PyErr.serviceError (("Failed to connect to SE Ranking API: ") ++ m))
  | Except.error (HttpFailure.otherError m) =>
      Except.error (PyErr.other m)

/-- `SERankingProcessorAgent.analyze_backlinks` (lines 26-55): every
failure kind is caught by one of the three `except` clauses and returned as
a `success: false` dictionary with a classified error string. -/
def serankingProcessorAnalyzeBacklinks (resp : Except HttpFailure JVal) :
    ProcessorResult :=
  match resp with
  | Except.ok j =>
      { success := true, data := some j,
        saudiAnalysis := some (analyzeSaudiMarketContext (jAsObjFields j)), error := none }
  | Except.error (HttpFailure.statusError code text) =>
      { success := false, data := none, saudiAnalysis := none,
        error := some (("API Error: ") ++ toString code ++ (" - ") ++ text) }
  | Except.error (HttpFailure.requestError m) =>
      { success := false, data := none, saudiAnalysis := none,
        error := some (("Failed to connect to SE Ranking API: ") ++ m) }
  | Except.error (HttpFailure.otherError m) =>
      { success := false, data := none, saudiAnalysis := none,
        error := some (("Unexpected error: ") ++ m) }

/-- The classified error reason each failure kind maps to in the processor
agent. -/
def classifyFailure : HttpFailure → String
  | HttpFailure.statusError code text => ("API Error: ") ++ toString code ++ (" - ") ++ text
  | HttpFailure.requestError m => ("Failed to connect to SE Ranking API: ") ++ m
  | HttpFailure.otherError m => ("Unexpected error: ") ++ m

/-! ### Chat message processing
(`chat_service.py`, `process_message` lines 38-124,
`_create_error_response` lines 401-421)

The body of `process_message` is a fixed sequence of awaited steps, any of
which may raise; the single `except Exception` handler (lines 119-124)
converts every such failure into the culturally sensitive error
response. -/

/-- The response the chat service returns to its caller: either the
master-agent content or the system error response. -/
structure ChatResponse where
  isSystemError : Bool
  content : String
deriving DecidableEq, Repr

/-- The apology content of `_create_error_response` (lines 405-414). -/
def chatErrorContent : String :=
  "🤲 أعتذر، واجهت صعوبة في معالجة طلبك.\n\nI apologize for the inconvenience. I encountered a technical issue while processing your request. \n\n🔄 Please try:\n• Rephrasing your question\n• Asking about a specific marketing topic\n• Starting with a simple greeting\n\nI\x27m here to help you with Saudi Arabian marketing insights and strategies. Let\x27s try again! 🚀"

/-- The `ChatResponse` built by `_create_error_response`: system agent,
apology content. -/
def createChatErrorResponse : ChatResponse :=
  { isSystemError := true, content := chatErrorContent }

/-- Outcomes of the awaited steps of `process_message`, in program order:
`_get_or_create_user`, `_get_or_create_conversation`, the cultural-context
and profile loads, `_create_conversation_turn` for the user message (turn
persistence), `_process_with_master_agent`, `_apply_cultural_intelligence`,
`_create_conversation_turn` for the assistant message (turn persistence),
and `_update_conversation_metadata`. -/
structure ChatStepOutcomes where
  userStep : Except PyErr Unit
  conversationStep : Except PyErr Unit
  contextLoadStep : Except PyErr Unit
  userTurnStep : Except PyErr Unit
  masterStep : Except PyErr Unit
  adaptStep : Except PyErr Unit
  assistantTurnStep : Except PyErr Unit
  metadataStep : Except PyErr Unit

/-- The steps of the `try` body of `process_message`, in program order. -/
def chatPipelineSteps (o : ChatStepOutcomes) : List (Except PyErr Unit) :=
  [o.userStep, o.conversationStep, o.contextLoadStep, o.userTurnStep,
   o.masterStep, o.adaptStep, o.assistantTurnStep, o.metadataStep]

/-- Run the step sequence: the first raising step aborts the body with its
exception; if all steps succeed the successful `ChatResponse` is built. -/
def processMessageBody (steps : List (Except PyErr Unit)) (successContent : String) :
    Except PyErr ChatResponse :=
  match steps with
  | [] => Except.ok { isSystemError := false, content := successContent }
  | s :: rest =>
      match s with
      | Except.ok _ => processMessageBody rest successContent
      | Except.error e => Except.error e

/-- Full `process_message` (lines 38-124): the `try` body, with the
catch-all `except Exception` handler returning the culturally sensitive
error response — the caller always receives a `ChatResponse`, never an
exception. -/
def processMessage (o : ChatStepOutcomes) (successContent : String) : ChatResponse :=
  match processMessageBody (chatPipelineSteps o) successContent with
  | Except.ok r => r
  | Except.error _ => createChatErrorResponse

/-- Step outcomes in which only turn persistence (the state store write of
`_create_conversation_turn`) fails. -/
def persistenceFailureOutcomes : ChatStepOutcomes :=
  { userStep := Except.ok (), conversationStep := Except.ok (),
    contextLoadStep := Except.ok (),
    userTurnStep := Except.error (PyErr.other ("db write failed")),
    masterStep := Except.ok (), adaptStep := Except.ok (),
    assistantTurnStep := Except.ok (), metadataStep := Except.ok () }

/-! ### Conversation store: get-or-create and the active-session invariant
(`chat_service.py`, `_get_or_create_conversation` lines 158-213;
`models/conversation.py`: `Conversation` declares a unique constraint only
on `session_id` — a fresh uuid per insert — and none on
`(user_id, is_active)`.) -/

/-- One row of the `conversations` table, restricted to the fields the
invariant ranges over.  `convId` models the always-fresh `session_id`. -/
structure ConvRow where
  convId : ℕ
  userId : ℕ
  isActive : Bool
deriving DecidableEq, Repr

/-- The conversations table plus a fresh-id source. -/
structure ConvStore where
  rows : List ConvRow
  nextId : ℕ
deriving DecidableEq, Repr

def emptyStore : ConvStore := { rows := [], nextId := 0 }

/-- The SELECT of lines 161-166: the active conversation of the user. -/
def selectActive (s : ConvStore) (uid : ℕ) : Option ConvRow :=
  s.rows.find? fun r => r.userId == uid && r.isActive

/-- The INSERT + COMMIT of lines 175-196: a new active conversation with a
fresh session id.  No uniqueness constraint involves `(user_id, is_active)`,
so the insert always succeeds. -/
def insertConversation (s : ConvStore) (uid : ℕ) : ConvRow × ConvStore :=
  let row : ConvRow := { convId := s.nextId, userId := uid, isActive := true }
  (row, { rows := s.rows ++ [row], nextId := s.nextId + 1 })

/-- Sequential `_get_or_create_conversation`: reuse the active conversation
when one exists (only its last-activity timestamp is touched), otherwise
insert a new active one. -/
def getOrCreateConversation (s : ConvStore) (uid : ℕ) : ConvRow × ConvStore :=
  match selectActive s uid with
  | some c => (c, s)
  | none => insertConversation s uid

/-- The write phase of one `_get_or_create_conversation` call, applied to
the store as it stands at commit time, deciding from the SELECT result the
call read earlier (the `await` between SELECT and INSERT is a suspension
point where another request may run). -/
def applyConversationDecision (r : Option ConvRow) (s : ConvStore) (uid : ℕ) : ConvStore :=
  match r with
  | some _ => s
  | none => (insertConversation s uid).2

/-- Two near-simultaneous first messages, racy interleaving: both requests
SELECT before either INSERT commits. -/
def racyRun (s0 : ConvStore) (uid : ℕ) : ConvStore :=
  let r1 := selectActive s0 uid
  let r2 := selectActive s0 uid
  let s1 := applyConversationDecision r1 s0 uid
  applyConversationDecision r2 s1 uid

/-- The same two calls run serially. -/
def serialRun (s0 : ConvStore) (uid : ℕ) : ConvStore :=
  let s1 := (getOrCreateConversation s0 uid).2
  (getOrCreateConversation s1 uid).2

/-- Number of active conversations of a user. -/
def activeCount (s : ConvStore) (uid : ℕ) : ℕ :=
  (s.rows.filter fun r => r.userId == uid && r.isActive).length

/-! ### Turn numbering
(`chat_service.py`, `_create_conversation_turn` lines 249-295;
`Conversation.total_turns` starts at 0, line 187.) -/

/-- The per-conversation state the turn-ordering invariant ranges over:
the `total_turns` counter and the persisted `turn_number`s in insertion
order. -/
structure ConvTurnState where
  totalTurns : ℕ
  turnNumbers : List ℕ
deriving DecidableEq, Repr

/-- `_create_conversation_turn`: the new turn gets
`turn_number = conversation.total_turns + 1` (line 268) and then
`conversation.total_turns += 1` (line 284), committed together. -/
def createConversationTurn (s : ConvTurnState) : ConvTurnState :=
  { totalTurns := s.totalTurns + 1
    turnNumbers := s.turnNumbers ++ [s.totalTurns + 1] }

/-- One successful coordination pass persists the inbound user turn and
then the outbound assistant turn (`process_message` lines 61 and 90). -/
def coordinationPassTurns (s : ConvTurnState) : ConvTurnState :=
  createConversationTurn (createConversationTurn s)

/-- A fresh conversation starts with `total_turns = 0` and no turns. -/
def initialTurnState : ConvTurnState := { totalTurns := 0, turnNumbers := [] }

/-! ### Cultural adaptation
(`chat_service.py`, `_apply_cultural_intelligence` lines 345-377,
`_add_default_cultural_context` lines 370-377, `_get_cultural_suggestions`
lines 379-387; `cultural_context_agent.py`, `CulturalContextAgent`
lines 9-87.) -/

/-- A stored cultural profile; every field may be unset ("partially
filled"). -/
structure CulturalProfile where
  nativeLanguage : Option String
  formality : Option String
deriving DecidableEq, Repr

/-- The adapted response dictionary `_apply_cultural_intelligence`
returns. -/
structure AdaptedResponse where
  content : String
  suggestions : List String
  culturalNotes : List String
deriving DecidableEq, Repr

/-- The methods `CulturalContextAgent` actually defines (lines 9-87). -/
def culturalAgentMethods : List String :=
  [("_is_arabic_text"), ("analyze_text_for_cultural_relevance"),
   ("adapt_recommendation_for_culture"), ("get_cultural_calendar_events")]

/-- Python attribute dispatch on the cultural agent: invoking a method it
does not define raises `AttributeError`. -/
def culturalAgentInvoke (method : String) : Except PyErr Unit :=
  if culturalAgentMethods.contains method then Except.ok ()
  else Except.error (PyErr.attributeError
    (("CulturalContextAgent object has no attribute ") ++ method))

def defaultCulturalPrefix : String := "🇸🇦 بسم الله الرحمن الرحيم\n\n"

def defaultCulturalSuffix : String :=
  "\n\n📍 *Guidance tailored for the Saudi Arabian market with respect for Islamic values and Vision 2030 objectives.*"

/-- `_get_cultural_suggestions` (lines 379-387). -/
def culturalSuggestions : List String :=
  ["Tell me about your business goals in the Saudi market",
   "How can I help with Vision 2030 alignment?",
   "Ask about halal marketing strategies",
   "Request Arabic content recommendations",
   "Explore Ramadan marketing opportunities"]

/-- `_extract_response_content` (lines 423-430): the coordinated analysis
is always present in the master-agent result and its summary key always
set, so the summary is extracted. -/
def extractResponseContent (r : AnalysisResults) : String :=
  r.coordinatedAnalysis.summary

/-- `_apply_cultural_intelligence` (lines 345-377): without a stored
cultural context the default Saudi framing is applied around the extracted
content with one fixed adaptation note; with a stored context the code
calls `self.cultural_agent.adapt_response_for_culture(...)` — a method
`CulturalContextAgent` does not define — so that branch raises
`AttributeError` before producing a response. -/
def applyCulturalIntelligence (agentResult : AnalysisResults)
    (profile : Option CulturalProfile) : Except PyErr AdaptedResponse :=
  match profile with
  | none =>
      Except.ok
        { content := defaultCulturalPrefix ++ extractResponseContent agentResult
            ++ defaultCulturalSuffix
          suggestions := culturalSuggestions
          culturalNotes := [("Response adapted for Saudi Arabian market context")] }
  | some _ =>
      match culturalAgentInvoke ("adapt_response_for_culture") with
      | Except.ok _ =>
          Except.ok { content := "", suggestions := [], culturalNotes := [] }
      | Except.error e => Except.error e

/-! ## Theorems -/

theorem floor_le_round (q : ℚ) : ⌊q⌋ ≤ round q := by
  rw [round_eq]
  exact Int.floor_le_floor (by linarith)

theorem round_le_floor_add_one (q : ℚ) : round q ≤ ⌊q⌋ + 1 := by
  rw [round_eq]
  have h1 : ⌊q + 1 / 2⌋ < ⌊q⌋ + 2 := by
    apply Int.floor_lt.mpr
    push_cast
    have := Int.lt_floor_add_one q
    linarith
  omega

theorem round_eq_floor_of_fract_lt_half {q : ℚ} (h : Int.fract q < 1 / 2) :
    round q = ⌊q⌋ := by
  rw [round_eq]
  have hf : q - ⌊q⌋ = Int.fract q := Int.self_sub_floor q
  have hge : (⌊q⌋ : ℚ) ≤ q + 1 / 2 := by
    have := Int.fract_nonneg q
    linarith
  have hlt : q + 1 / 2 < (⌊q⌋ : ℚ) + 1 := by linarith
  have h1 : ⌊q⌋ ≤ ⌊q + 1 / 2⌋ := Int.le_floor.mpr hge
  have h2 : ⌊q + 1 / 2⌋ < ⌊q⌋ + 1 := Int.floor_lt.mpr (by push_cast; linarith)
  omega

theorem round_eq_floor_add_one_of_half_lt_fract {q : ℚ} (h : 1 / 2 < Int.fract q) :
    round q = ⌊q⌋ + 1 := by
  rw [round_eq]
  have hf : q - ⌊q⌋ = Int.fract q := Int.self_sub_floor q
  have hfl : Int.fract q < 1 := Int.fract_lt_one q
  have h1 : ⌊q⌋ + 1 ≤ ⌊q + 1 / 2⌋ := Int.le_floor.mpr (by push_cast; linarith)
  have h2 : ⌊q + 1 / 2⌋ < ⌊q⌋ + 2 := Int.floor_lt.mpr (by push_cast; linarith)
  omega

theorem pyRound_intCast (n : ℤ) : pyRound (n : ℚ) = n := by
  unfold pyRound
  rw [Int.fract_intCast]
  norm_num [round_intCast]

theorem floor_le_pyRound (q : ℚ) : ⌊q⌋ ≤ pyRound q := by
  unfold pyRound
  split
  · split
    · exact le_refl _
    · omega
  · exact floor_le_round q

theorem pyRound_le_floor_add_one (q : ℚ) : pyRound q ≤ ⌊q⌋ + 1 := by
  unfold pyRound
  split
  · split
    · omega
    · exact le_refl _
  · exact round_le_floor_add_one q

theorem pyRound_mono {x y : ℚ} (h : x ≤ y) : pyRound x ≤ pyRound y := by
  have hfl : ⌊x⌋ ≤ ⌊y⌋ := Int.floor_le_floor h
  rcases lt_or_eq_of_le hfl with hlt | heq
  · calc pyRound x ≤ ⌊x⌋ + 1 := pyRound_le_floor_add_one x
      _ ≤ ⌊y⌋ := by omega
      _ ≤ pyRound y := floor_le_pyRound y
  · have heqQ : (⌊x⌋ : ℚ) = (⌊y⌋ : ℚ) := by exact_mod_cast heq
    have hfr : Int.fract x ≤ Int.fract y := by
      have hx := Int.self_sub_floor x
      have hy := Int.self_sub_floor y
      linarith
    unfold pyRound
    by_cases hx2 : Int.fract x = 1 / 2 <;> by_cases hy2 : Int.fract y = 1 / 2 <;>
      simp only [hx2, hy2, if_pos, if_neg, if_true, if_false]
    · -- both ties: x = y
      have hxy : x = y := by
        have hx := Int.self_sub_floor x
        have hy := Int.self_sub_floor y
        rw [hx2] at hx
        rw [hy2] at hy
        linarith
      subst hxy
      exact le_refl _
    · -- tie at x, strictly above half at y
      have hyh : 1 / 2 < Int.fract y := lt_of_le_of_ne (hx2 ▸ hfr) (Ne.symm hy2)
      rw [round_eq_floor_add_one_of_half_lt_fract hyh]
      split <;> omega
    · -- strictly below half at x, tie at y
      have hxh : Int.fract x < 1 / 2 := lt_of_le_of_ne (hy2 ▸ hfr) hx2
      rw [round_eq_floor_of_fract_lt_half hxh]
      split <;> omega
    · rw [round_eq, round_eq]
      exact Int.floor_le_floor (by linarith)

theorem pyRound_nonneg {q : ℚ} (h : 0 ≤ q) : 0 ≤ pyRound q := by
  have : pyRound (0 : ℚ) ≤ pyRound q := pyRound_mono h
  rw [show ((0 : ℚ)) = ((0 : ℤ) : ℚ) by norm_num, pyRound_intCast] at this
  exact this

theorem pyRound1_mono {x y : ℚ} (h : x ≤ y) : pyRound1 x ≤ pyRound1 y := by
  unfold pyRound1
  have := pyRound_mono (show x * 10 ≤ y * 10 by linarith)
  have hc : ((pyRound (x * 10) : ℚ)) ≤ ((pyRound (y * 10) : ℚ)) := by exact_mod_cast this
  linarith

theorem pyRound1_nonneg {q : ℚ} (h : 0 ≤ q) : 0 ≤ pyRound1 q := by
  unfold pyRound1
  have : (0 : ℤ) ≤ pyRound (q * 10) := pyRound_nonneg (by linarith)
  have hc : (0 : ℚ) ≤ (pyRound (q * 10) : ℚ) := by exact_mod_cast this
  linarith

theorem pyRound1_ten : pyRound1 (10 : ℚ) = 10 := by
  unfold pyRound1
  have h : (10 : ℚ) * 10 = ((100 : ℤ) : ℚ) := by norm_num
  rw [h, pyRound_intCast]
  norm_num

theorem relevance_total_pos (refdomains : ℕ) :
    (0 : ℚ) < (if refdomains = 0 then 1 else (refdomains : ℚ)) := by
  split
  · norm_num
  · rename_i hne
    exact_mod_cast Nat.pos_of_ne_zero hne

theorem relevanceRaw_nonneg (a b c d e f g : ℕ) : 0 ≤ relevanceRaw a b c d e f g := by
  unfold relevanceRaw
  have ht := relevance_total_pos e
  have h1 : (0 : ℚ) ≤ (a : ℚ) / (if e = 0 then 1 else (e : ℚ)) * 4 :=
    mul_nonneg (div_nonneg (by positivity) (le_of_lt ht)) (by norm_num)
  have h2 : (0 : ℚ) ≤ (b : ℚ) / (if e = 0 then 1 else (e : ℚ)) * 2 :=
    mul_nonneg (div_nonneg (by positivity) (le_of_lt ht)) (by norm_num)
  have h3 : (0 : ℚ) ≤ (c : ℚ) / ((max d 1 : ℕ) : ℚ) * 2 := by positivity
  have h4 : (0 : ℚ) ≤ (if 0 < f then (1 : ℚ) else 0) := by split <;> norm_num
  have h5 : (0 : ℚ) ≤ (if 0 < g then (1 : ℚ) / 2 else 0) := by split <;> norm_num
  linarith

theorem relevanceRaw_mono {a a' : ℕ} (b c d e f g : ℕ) (h : a ≤ a') :
    relevanceRaw a b c d e f g ≤ relevanceRaw a' b c d e f g := by
  unfold relevanceRaw
  have ht := relevance_total_pos e
  have hc : (a : ℚ) ≤ (a' : ℚ) := by exact_mod_cast h
  have hd : (a : ℚ) / (if e = 0 then 1 else (e : ℚ)) ≤ (a' : ℚ) / (if e = 0 then 1 else (e : ℚ)) :=
    (div_le_div_iff_of_pos_right ht).mpr hc
  linarith

theorem clamp_eq_min (a : ℚ) : (if 10 < a then 10 else a) = min a 10 := by
  rw [min_def]
  split <;> split <;> first | rfl | linarith

theorem pyRound1_clamp (r : ℚ) :
    (if 10 < pyRound1 r then 10 else pyRound1 r) = pyRound1 (min r 10) := by
  rcases le_or_lt r 10 with hr | hr
  · rw [min_eq_left hr]
    have : pyRound1 r ≤ pyRound1 10 := pyRound1_mono hr
    rw [pyRound1_ten] at this
    rw [if_neg (not_lt.mpr this)]
  · rw [min_eq_right (le_of_lt hr)]
    have : pyRound1 10 ≤ pyRound1 r := pyRound1_mono (le_of_lt hr)
    rw [pyRound1_ten] at this
    rw [pyRound1_ten]
    rcases lt_or_eq_of_le this with hgt | heq
    · rw [if_pos hgt]
    · rw [if_neg (heq ▸ lt_irrefl 10), ← heq]

theorem localRelevanceScore_eq_min (a b c d e f g : ℕ) :
    localRelevanceScore a b c d e f g = min (pyRound1 (relevanceRaw a b c d e f g)) 10 := by
  unfold localRelevanceScore
  exact clamp_eq_min _

theorem specRelevanceScore_eq (a b c d e f g : ℕ) :
    specRelevanceScore a b c d e f g = pyRound1 (min (relevanceRaw a b c d e f g) 10) := by
  unfold specRelevanceScore relevanceRaw
  have htot : ((max e 1 : ℕ) : ℚ) = (if e = 0 then 1 else (e : ℚ)) := by
    cases e with
    | zero => norm_num
    | succ n =>
        have h1 : max (n + 1) 1 = n + 1 := Nat.max_eq_left (Nat.succ_le_succ (Nat.zero_le n))
        rw [h1, if_neg (Nat.succ_ne_zero n)]
  rw [htot]

/-- C2: for every backlink-summary payload with non-negative counts, the
regional relevance score equals the spec's weighted-sum formula with
denominators floored at 1, clamped at 10.0 and rounded to one decimal
place; consequently it lies in [0, 10], and increasing the Saudi referring
count (hence `saudi_ratio`) while holding the other inputs fixed never
decreases the score. -/
theorem seranking_relevance_score_correct
    (saudiCount saudiCount' gccCount arabicCount anchorsTotal refdomains govCount eduCount : ℕ)
    (hmono : saudiCount ≤ saudiCount') :
    localRelevanceScore saudiCount gccCount arabicCount anchorsTotal refdomains govCount eduCount
        = specRelevanceScore saudiCount gccCount arabicCount anchorsTotal refdomains govCount eduCount
      ∧ 0 ≤ localRelevanceScore saudiCount gccCount arabicCount anchorsTotal refdomains govCount eduCount
      ∧ localRelevanceScore saudiCount gccCount arabicCount anchorsTotal refdomains govCount eduCount ≤ 10
      ∧ localRelevanceScore saudiCount gccCount arabicCount anchorsTotal refdomains govCount eduCount
        ≤ localRelevanceScore saudiCount' gccCount arabicCount anchorsTotal refdomains govCount eduCount := by
  refine ⟨?_, ?_, ?_, ?_⟩
  · rw [specRelevanceScore_eq]
    unfold localRelevanceScore
    exact pyRound1_clamp _
  · rw [localRelevanceScore_eq_min]
    exact le_min (pyRound1_nonneg (relevanceRaw_nonneg _ _ _ _ _ _ _)) (by norm_num)
  · rw [localRelevanceScore_eq_min]
    exact min_le_right _ _
  · rw [localRelevanceScore_eq_min, localRelevanceScore_eq_min]
    exact min_le_min (pyRound1_mono (relevanceRaw_mono _ _ _ _ _ _ hmono)) (le_refl _)

/-- Witness for C2 at concrete inputs: 1 vs 2 Saudi referring domains out
of 4, one Arabic anchor out of 2, one government backlink. -/
theorem seranking_relevance_score_correct_witness :
    (1 : ℕ) ≤ 2
      ∧ (localRelevanceScore 1 0 1 2 4 1 0 = specRelevanceScore 1 0 1 2 4 1 0
        ∧ 0 ≤ localRelevanceScore 1 0 1 2 4 1 0
        ∧ localRelevanceScore 1 0 1 2 4 1 0 ≤ 10
        ∧ localRelevanceScore 1 0 1 2 4 1 0 ≤ localRelevanceScore 2 0 1 2 4 1 0) :=
  ⟨by norm_num, seranking_relevance_score_correct 1 2 0 1 2 4 1 0 (by norm_num)⟩

/-- C5 counterexample: for the message "website" exactly one specialist
beyond cultural adaptation (web intelligence) is selected, yet the
data-synthesis specialist is included — refuting the claimed
"if and only if more than one" condition. -/
theorem determineRequiredAgents_website_refutes_more_than_one :
    ¬ (Agent.dataSynthesis ∈ determineRequiredAgents ("website")
        ↔ 1 < (selectedBeyondCultural ("website")).length) := by
  decide

/-- C5 amended: the data-synthesis specialist is included in the required
set if and only if at least one specialist beyond cultural adaptation was
selected for the message. -/
theorem determineRequiredAgents_synthesis_iff (msg : String) :
    Agent.dataSynthesis ∈ determineRequiredAgents msg
      ↔ 0 < (selectedBeyondCultural msg).length := by
  unfold selectedBeyondCultural determineRequiredAgents
  generalize (msg.toList.map Char.toLower) = m
  unfold primaryAgents
  rcases Bool.eq_false_or_eq_true (classifierHit seoKeywords m) with h1 | h1 <;>
    rcases Bool.eq_false_or_eq_true (classifierHit competitorKeywords m) with h2 | h2 <;>
      rcases Bool.eq_false_or_eq_true (classifierHit websiteKeywords m) with h3 | h3 <;>
        rcases Bool.eq_false_or_eq_true (classifierHit marketingKeywords m) with h4 | h4 <;>
          simp [h1, h2, h3, h4]

theorem mem_ite_singleton {α : Type} {c : Prop} [Decidable c] {x p : α}
    (hp : p ∈ (if c then [x] else ([] : List α))) : c ∧ p = x := by
  split at hp
  · exact ⟨by assumption, List.mem_singleton.mp hp⟩
  · simp at hp

theorem collectFold_all_failed (g : Agent × AgentResult → List String) :
    ∀ (rs : List (Agent × AgentResult)) (acc : List String),
      (∀ p ∈ rs, p.2.statusSuccess = false) →
      rs.foldl (fun acc p => if p.2.statusSuccess then acc ++ g p else acc) acc = acc := by
  intro rs
  induction rs with
  | nil => intro acc _; rfl
  | cons hd tl ih =>
      intro acc h
      have hhd : hd.2.statusSuccess = false := h hd (List.mem_cons_self _ _)
      simp only [List.foldl_cons, hhd, Bool.false_eq_true, if_false]
      exact ih acc fun p hp => h p (List.mem_cons_of_mem _ hp)

theorem agentResultsOf_all_failed (req : List Agent) (outs : Agent → AdapterOutcome)
    (h : ∀ a ∈ req, ∃ e, outs a = AdapterOutcome.failed e) :
    ∀ p ∈ agentResultsOf req outs, p.2.statusSuccess = false := by
  intro p hp
  unfold agentResultsOf at hp
  simp only [List.mem_append] at hp
  rcases hp with (((h1 | h2) | h3) | h4)
  · obtain ⟨hc, rfl⟩ := mem_ite_singleton h1
    obtain ⟨e, he⟩ := h _ hc
    simp [he, execAdapter]
  · obtain ⟨hc, rfl⟩ := mem_ite_singleton h2
    obtain ⟨e, he⟩ := h _ hc
    simp [he, execAdapter]
  · obtain ⟨hc, rfl⟩ := mem_ite_singleton h3
    obtain ⟨e, he⟩ := h _ hc
    simp [he, execAdapter]
  · obtain ⟨hc, rfl⟩ := mem_ite_singleton h4
    obtain ⟨e, he⟩ := h _ hc
    simp [he, execAdapter]

theorem generateResponseSummary_ne_empty (m : String) (i r : List String) :
    generateResponseSummary m i r ≠ "" := by
  intro hcon
  have hlen := congrArg String.length hcon
  rw [generateResponseSummary] at hlen
  simp only [String.length_append] at hlen
  have hpre : 0 < summaryHeaderPre.length := by decide
  have hnil : ("" : String).length = 0 := rfl
  rw [hnil] at hlen
  omega

/-- C3 counterexample: for the message "seo" four specialists are required,
and the coordination trace awaits the first adapter before starting the
second — the fan-out is not concurrent (not all starts precede all
awaits). -/
theorem coordinate_fanout_not_concurrent :
    allStartsBeforeAwaits (coordinateTrace (determineRequiredAgents ("seo"))) = false := by
  decide

/-- C3 amended: the coordination pass invokes the required adapters
strictly sequentially — each adapter is started and awaited to completion
before the next is started — and it still starts and awaits every required
adapter and records a result for each, regardless of individual adapter
failures (no short-circuit: the wrapped calls never raise, so every block
runs). -/
theorem coordinate_fanout_sequential (msg : String) (outs : Agent → AdapterOutcome) :
    sequentialPairs (coordinateTrace (determineRequiredAgents msg)) = true
      ∧ ∀ a ∈ determineRequiredAgents msg,
          AdapterEvent.start a ∈ coordinateTrace (determineRequiredAgents msg)
          ∧ AdapterEvent.awaited a ∈ coordinateTrace (determineRequiredAgents msg)
          ∧ (a, execAdapter (outs a)) ∈ agentResultsOf (determineRequiredAgents msg) outs := by
  generalize determineRequiredAgents msg = req
  constructor
  · unfold coordinateTrace
    by_cases h1 : Agent.culturalContext ∈ req <;> by_cases h2 : Agent.perplexity ∈ req <;>
      by_cases h3 : Agent.seranking ∈ req <;> by_cases h4 : Agent.dataSynthesis ∈ req <;>
        simp [h1, h2, h3, h4, sequentialPairs]
  · intro a ha
    cases a with
    | culturalContext => exact ⟨by simp [coordinateTrace, ha], by simp [coordinateTrace, ha],
        by simp [agentResultsOf, ha]⟩
    | perplexity => exact ⟨by simp [coordinateTrace, ha], by simp [coordinateTrace, ha],
        by simp [agentResultsOf, ha]⟩
    | seranking => exact ⟨by simp [coordinateTrace, ha], by simp [coordinateTrace, ha],
        by simp [agentResultsOf, ha]⟩
    | dataSynthesis => exact ⟨by simp [coordinateTrace, ha], by simp [coordinateTrace, ha],
        by simp [agentResultsOf, ha]⟩

/-- Closed instance of `coordinate_fanout_sequential` at the message "seo"
with every adapter failing. -/
theorem coordinate_fanout_sequential_witness :
    sequentialPairs (coordinateTrace (determineRequiredAgents ("seo"))) = true
      ∧ ∀ a ∈ determineRequiredAgents ("seo"),
          AdapterEvent.start a ∈ coordinateTrace (determineRequiredAgents ("seo"))
          ∧ AdapterEvent.awaited a ∈ coordinateTrace (determineRequiredAgents ("seo"))
          ∧ (a, execAdapter ((fun _ => AdapterOutcome.failed ("x")) a))
              ∈ agentResultsOf (determineRequiredAgents ("seo"))
                  (fun _ => AdapterOutcome.failed ("x")) :=
  coordinate_fanout_sequential ("seo") (fun _ => AdapterOutcome.failed ("x"))

set_option maxRecDepth 8192 in
/-- C1 counterexample: with every required specialist failing on the
message "seo", the pass does reach the done state without raising, but its
summary is the standard coordinated template (with empty insight and
recommendation sections), not the culturally adapted apology/redirect
fallback text — the graceful fallback summary is produced only by the
exception-handler path. -/
theorem coordinate_total_failure_not_apology :
    (coordinateMarketingAnalysis ("seo")
        (fun _ => AdapterOutcome.failed ("boom"))).statusError = false
      ∧ (coordinateMarketingAnalysis ("seo")
          (fun _ => AdapterOutcome.failed ("boom"))).coordinatedAnalysis.summary
        ≠ gracefulFallbackSummary := by
  constructor
  · rfl
  · decide

/-- C1 amended: when every required specialist fails, the coordination pass
still completes on the done path (it never raises: every adapter call is
exception-wrapped and the remaining body is total), returning a non-empty
summary — namely the standard coordinated template over empty insight and
recommendation lists, rather than the apology/redirect fallback text of the
exception handler. -/
theorem coordinate_total_failure_graceful (msg : String) (outs : Agent → AdapterOutcome)
    (h : ∀ a ∈ determineRequiredAgents msg, ∃ e, outs a = AdapterOutcome.failed e) :
    (coordinateMarketingAnalysis msg outs).statusError = false
      ∧ (coordinateMarketingAnalysis msg outs).coordinatedAnalysis.summary
          = generateResponseSummary msg [] []
      ∧ (coordinateMarketingAnalysis msg outs).coordinatedAnalysis.summary ≠ "" := by
  have hall := agentResultsOf_all_failed (determineRequiredAgents msg) outs h
  have hins : collectInsights (agentResultsOf (determineRequiredAgents msg) outs) = [] :=
    collectFold_all_failed _ _ [] hall
  have hrecs : collectRecommendations (agentResultsOf (determineRequiredAgents msg) outs) = [] :=
    collectFold_all_failed _ _ [] hall
  have hsum : (coordinateMarketingAnalysis msg outs).coordinatedAnalysis.summary
      = generateResponseSummary msg [] [] := by
    simp only [coordinateMarketingAnalysis, createCoordinatedAnalysis]
    rw [hins, hrecs]
  exact ⟨rfl, hsum, hsum ▸ generateResponseSummary_ne_empty msg [] []⟩

/-- Closed instance of `coordinate_total_failure_graceful` at the message
"seo" with every adapter failing. -/
theorem coordinate_total_failure_graceful_witness :
    (∀ a ∈ determineRequiredAgents ("seo"),
        ∃ e, (fun _ : Agent => AdapterOutcome.failed ("boom")) a = AdapterOutcome.failed e)
      ∧ ((coordinateMarketingAnalysis ("seo")
            (fun _ => AdapterOutcome.failed ("boom"))).statusError = false
        ∧ (coordinateMarketingAnalysis ("seo")
            (fun _ => AdapterOutcome.failed ("boom"))).coordinatedAnalysis.summary
              = generateResponseSummary ("seo") [] []
        ∧ (coordinateMarketingAnalysis ("seo")
            (fun _ => AdapterOutcome.failed ("boom"))).coordinatedAnalysis.summary ≠ "") :=
  ⟨fun _ _ => ⟨("boom"), rfl⟩,
    coordinate_total_failure_graceful ("seo") _ (fun _ _ => ⟨("boom"), rfl⟩)⟩

theorem run_bind_liftExc_ok {α β : Type} (a : α)
    (k : α → EStateM PyErr SaudiContext β) (s : SaudiContext) :
    (liftExc (Except.ok a) >>= k).run s = (k a).run s := rfl

theorem run_bind_liftExc_error {α β : Type} (e : PyErr)
    (k : α → EStateM PyErr SaudiContext β) (s : SaudiContext) :
    (liftExc (Except.error e) >>= k).run s = EStateM.Result.error e s := rfl

theorem run_pure_unit (s : SaudiContext) :
    (pure () : EStateM PyErr SaudiContext Unit).run s = EStateM.Result.ok () s := rfl

theorem jLookup_isSome_of_any {p : List (String × JVal)} {k : String}
    (hc : (p.any fun q => q.1 == k) = true) : ∃ v, jLookup p k = some v := by
  induction p with
  | nil => simp at hc
  | cons hd tl ih =>
      by_cases hh : hd.1 == k
      · exact ⟨hd.2, by simp [jLookup, List.find?_cons, hh]⟩
      · have htl : (tl.any fun q => q.1 == k) = true := by
          rcases (List.any_eq_true).mp hc with ⟨x, hx, hpx⟩
          rcases List.mem_cons.mp hx with rfl | hxtl
          · exact absurd hpx hh
          · exact (List.any_eq_true).mpr ⟨x, hxtl, hpx⟩
        obtain ⟨v, hv⟩ := ih htl
        refine ⟨v, ?_⟩
        simp only [jLookup, List.find?_cons] at hv ⊢
        have hh' : (hd.1 == k) = false := by simpa using hh
        rw [hh']
        exact hv

theorem hasUsableSummary_eq_of_lookup {p : List (String × JVal)} {v : JVal}
    (hv : jLookup p ("summary") = some v) :
    hasUsableSummary p
      = (match pyLen v with
        | Except.ok n => decide (0 < n)
        | Except.error _ => false) := by
  unfold hasUsableSummary
  rw [hv]

/-- C10: `_analyze_saudi_market_context` is total — every exception inside
the `try` body is caught, the six analysis keys are initialised before the
body runs (captured by the `SaudiContext` record the embedding always
returns) — and for every payload with no usable `summary` entry (key
missing, value of zero length, or value whose `len` raises) the function
returns exactly the default context, whose `local_relevance_score` is
`0.0`. -/
theorem analyzeSaudiMarketContext_no_usable (p : List (String × JVal))
    (h : hasUsableSummary p = false) :
    analyzeSaudiMarketContext p = defaultSaudiContext
      ∧ (analyzeSaudiMarketContext p).localRelevanceScore = 0 := by
  have hmain : analyzeSaudiMarketContext p = defaultSaudiContext := by
    unfold analyzeSaudiMarketContext analyzeBody
    by_cases hc : (p.any fun q => q.1 == ("summary")) = true
    · obtain ⟨v, hv⟩ := jLookup_isSome_of_any hc
      cases hpl : pyLen v with
      | error e =>
          simp only [hc, if_true, hv, Option.getD_some, hpl, run_bind_liftExc_error]
      | ok n =>
          have hn : ¬ 0 < n := by
            intro hpos
            rw [hasUsableSummary_eq_of_lookup hv, hpl] at h
            simp [hpos] at h
          simp only [hc, if_true, hv, Option.getD_some, hpl, run_bind_liftExc_ok, hn,
            if_false, run_pure_unit]
    · simp only [Bool.not_eq_true] at hc
      simp only [hc, Bool.false_eq_true, if_false, run_pure_unit]
  exact ⟨hmain, by rw [hmain]; rfl⟩

/-- Witness for C10 at the malformed payload `{"summary": 5}`: `len(5)`
raises `TypeError`, the handler catches it, and the defaults come back. -/
theorem analyzeSaudiMarketContext_no_usable_witness :
    hasUsableSummary [(("summary"), JVal.num 5)] = false
      ∧ (analyzeSaudiMarketContext [(("summary"), JVal.num 5)] = defaultSaudiContext
        ∧ (analyzeSaudiMarketContext [(("summary"), JVal.num 5)]).localRelevanceScore = 0) :=
  ⟨rfl, analyzeSaudiMarketContext_no_usable _ rfl⟩

/-- C4 counterexample: a network-level failure makes
`SERankingService.analyze_backlinks` raise `ServiceError` to its caller
instead of returning a `success: false` result dictionary. -/
theorem serankingService_requestError_raises :
    serankingServiceAnalyzeBacklinks
        (Except.error (HttpFailure.requestError ("connection timed out")))
      = Except.error (PyErr.serviceError
          ("Failed to connect to SE Ranking API: connection timed out")) := rfl

/-- C4 amended: the processor-agent backlink adapter never raises — every
failure kind yields `success: false` with the classified error reason —
while the service-level backlink adapter returns `success: false` only for
HTTP status errors and re-raises network failures as `ServiceError`. -/
theorem seranking_adapter_error_contract (f : HttpFailure) :
    ((serankingProcessorAnalyzeBacklinks (Except.error f)).success = false
        ∧ (serankingProcessorAnalyzeBacklinks (Except.error f)).error
            = some (classifyFailure f))
      ∧ (∀ code text, f = HttpFailure.statusError code text →
          serankingServiceAnalyzeBacklinks (Except.error f)
            = Except.ok
                { success := false, data := none,
                  error := some (("API Error: ") ++ toString code ++ (" - ") ++ text),
                  statusCode := some code })
      ∧ (∀ m, f = HttpFailure.requestError m →
          serankingServiceAnalyzeBacklinks (Except.error f)
            = Except.error (PyErr.serviceError
                (("Failed to connect to SE Ranking API: ") ++ m))) := by
  cases f with
  | statusError code text =>
      refine ⟨⟨rfl, rfl⟩, ?_, ?_⟩
      · intro code' text' h
        cases h
        rfl
      · intro m h
        cases h
  | requestError m =>
      refine ⟨⟨rfl, rfl⟩, ?_, ?_⟩
      · intro code' text' h
        cases h
      · intro m' h
        cases h
        rfl
  | otherError m =>
      refine ⟨⟨rfl, rfl⟩, ?_, ?_⟩
      · intro code' text' h
        cases h
      · intro m' h
        cases h

/-- Closed instance of `seranking_adapter_error_contract` at a concrete
HTTP status failure. -/
theorem seranking_adapter_error_contract_witness :
    ((serankingProcessorAnalyzeBacklinks
          (Except.error (HttpFailure.statusError 404 ("not found")))).success = false
        ∧ (serankingProcessorAnalyzeBacklinks
            (Except.error (HttpFailure.statusError 404 ("not found")))).error
              = some (classifyFailure (HttpFailure.statusError 404 ("not found"))))
      ∧ (∀ code text,
          HttpFailure.statusError 404 ("not found") = HttpFailure.statusError code text →
          serankingServiceAnalyzeBacklinks
              (Except.error (HttpFailure.statusError 404 ("not found")))
            = Except.ok
                { success := false, data := none,
                  error := some (("API Error: ") ++ toString code ++ (" - ") ++ text),
                  statusCode := some code })
      ∧ (∀ m, HttpFailure.statusError 404 ("not found") = HttpFailure.requestError m →
          serankingServiceAnalyzeBacklinks
              (Except.error (HttpFailure.statusError 404 ("not found")))
            = Except.error (PyErr.serviceError
                (("Failed to connect to SE Ranking API: ") ++ m))) :=
  seranking_adapter_error_contract (HttpFailure.statusError 404 ("not found"))

/-- C6 counterexample: when turn persistence (the state-store write) fails,
`process_message` does not propagate a server error — the catch-all handler
swallows the exception and the caller receives the apology `ChatResponse`
normally. -/
theorem chat_persistence_error_absorbed :
    processMessageBody (chatPipelineSteps persistenceFailureOutcomes) ("analysis")
        = Except.error (PyErr.other ("db write failed"))
      ∧ processMessage persistenceFailureOutcomes ("analysis") = createChatErrorResponse :=
  ⟨rfl, rfl⟩

/-- C6 amended: every failure of every step of `process_message` —
adapter-, classification- and persistence-level alike — is absorbed by the
single catch-all handler: the caller always receives a `ChatResponse`,
either the successful content or the culturally sensitive error response,
and no exception crosses the boundary. -/
theorem processMessage_total_absorption (o : ChatStepOutcomes) (c : String) :
    processMessage o c = { isSystemError := false, content := c }
      ∨ processMessage o c = createChatErrorResponse := by
  unfold processMessage
  have hdi : ∀ steps : List (Except PyErr Unit),
      processMessageBody steps c = Except.ok { isSystemError := false, content := c }
        ∨ ∃ e, processMessageBody steps c = Except.error e := by
    intro steps
    induction steps with
    | nil => exact Or.inl rfl
    | cons s rest ih =>
        cases s with
        | ok u => exact ih
        | error e => exact Or.inr ⟨e, rfl⟩
  rcases hdi (chatPipelineSteps o) with h | ⟨e, h⟩
  · rw [h]
    exact Or.inl rfl
  · rw [h]
    exact Or.inr rfl

/-- C7 counterexample: from an empty store, two near-simultaneous first
messages from user 7 under the racy interleaving (both SELECTs before
either INSERT) create two active conversations, while the serial schedule
creates exactly one — there is no uniqueness constraint or serialization
preventing the race. -/
theorem conversation_race_creates_two_active :
    activeCount (racyRun emptyStore 7) 7 = 2
      ∧ activeCount (serialRun emptyStore 7) 7 = 1 :=
  ⟨rfl, rfl⟩

theorem activeCount_eq_zero_of_selectActive_none {s : ConvStore} {uid : ℕ}
    (h : selectActive s uid = none) : activeCount s uid = 0 := by
  unfold selectActive at h
  unfold activeCount
  rw [List.length_eq_zero]
  rw [List.find?_eq_none] at h
  exact List.filter_eq_nil_iff.mpr h

theorem activeCount_insert (s : ConvStore) (uid : ℕ) :
    activeCount (insertConversation s uid).2 uid = activeCount s uid + 1 := by
  unfold insertConversation activeCount
  simp [List.filter_append]

/-- C7 amended: run serially, `_get_or_create_conversation` preserves the
at-most-one-active-session invariant and reuses the existing active
conversation (the store is unchanged and the selected row is returned);
but under concurrent interleaving of two first messages the
SELECT-then-INSERT race can create two active sessions, since the schema
has no uniqueness constraint on `(user_id, is_active)`. -/
theorem getOrCreateConversation_serial_invariant (s : ConvStore) (uid : ℕ)
    (h : activeCount s uid ≤ 1) :
    activeCount (getOrCreateConversation s uid).2 uid ≤ 1
      ∧ (∀ c, selectActive s uid = some c →
          (getOrCreateConversation s uid).2 = s ∧ (getOrCreateConversation s uid).1 = c) := by
  cases hsel : selectActive s uid with
  | some c =>
      unfold getOrCreateConversation
      rw [hsel]
      refine ⟨h, ?_⟩
      intro c' hc'
      cases hc'
      exact ⟨rfl, rfl⟩
  | none =>
      have h0 : activeCount s uid = 0 := activeCount_eq_zero_of_selectActive_none hsel
      unfold getOrCreateConversation
      rw [hsel]
      constructor
      · rw [activeCount_insert, h0]
      · intro c' hc'
        cases hc'

/-- Closed instance of `getOrCreateConversation_serial_invariant` at a
store holding one active conversation for user 7. -/
theorem getOrCreateConversation_serial_invariant_witness :
    activeCount { rows := [{ convId := 0, userId := 7, isActive := true }], nextId := 1 } 7 ≤ 1
      ∧ (activeCount (getOrCreateConversation
            { rows := [{ convId := 0, userId := 7, isActive := true }], nextId := 1 } 7).2 7 ≤ 1
        ∧ (∀ c, selectActive
              { rows := [{ convId := 0, userId := 7, isActive := true }], nextId := 1 } 7 = some c →
            (getOrCreateConversation
              { rows := [{ convId := 0, userId := 7, isActive := true }], nextId := 1 } 7).2
              = { rows := [{ convId := 0, userId := 7, isActive := true }], nextId := 1 }
            ∧ (getOrCreateConversation
                { rows := [{ convId := 0, userId := 7, isActive := true }], nextId := 1 } 7).1 = c)) :=
  ⟨by decide,
    getOrCreateConversation_serial_invariant
      { rows := [{ convId := 0, userId := 7, isActive := true }], nextId := 1 } 7 (by decide)⟩

theorem createConversationTurn_preserves {s : ConvTurnState}
    (h : s.turnNumbers = List.range' 1 s.totalTurns) :
    (createConversationTurn s).turnNumbers
      = List.range' 1 (createConversationTurn s).totalTurns := by
  unfold createConversationTurn
  simp only []
  rw [h, List.range'_concat]
  simp [Nat.add_comm]

/-- C8: starting from a fresh conversation, after any number of successful
coordination passes (each persisting the user turn then the assistant
turn), the persisted turn numbers are exactly the contiguous run
`1, 2, …, total_turns` — no gaps, no duplicates. -/
theorem conversation_turn_numbers_contiguous (n : ℕ) :
    (coordinationPassTurns^[n] initialTurnState).turnNumbers
      = List.range' 1 (coordinationPassTurns^[n] initialTurnState).totalTurns := by
  induction n with
  | zero => rfl
  | succ k ih =>
      rw [Function.iterate_succ_apply']
      exact createConversationTurn_preserves (createConversationTurn_preserves ih)

/-- C9: evaluation of `_apply_cultural_intelligence` on both profile
shapes.  With no stored cultural context the default framing is applied
around the extracted content with exactly one adaptation note and no
exception; with any stored context (however partially filled) the code
invokes `adapt_response_for_culture`, a method `CulturalContextAgent` does
not define, and raises `AttributeError` instead of returning an adapted
response. -/
theorem applyCulturalIntelligence_behavior :
    (∀ (r : AnalysisResults) (p : CulturalProfile),
        applyCulturalIntelligence r (some p)
          = Except.error (PyErr.attributeError
              (("CulturalContextAgent object has no attribute ")
                ++ ("adapt_response_for_culture"))))
      ∧ (∀ r : AnalysisResults,
          applyCulturalIntelligence r none
            = Except.ok
                { content := defaultCulturalPrefix ++ extractResponseContent r
                    ++ defaultCulturalSuffix
                  suggestions := culturalSuggestions
                  culturalNotes := [("Response adapted for Saudi Arabian market context")] }) :=
  ⟨fun _ _ => rfl, fun _ => rfl⟩

end Morvo
